import Mathlib

set_option exponentiation.threshold 3000
set_option maxRecDepth 4000

/-!
Verification development for the willowv2 backend.

Each section embeds one component of the repository as executable Lean
definitions (translated from the Python source) and proves the stated
properties about them.  External effects (the YouTube REST client, the
database, the filesystem, the clock) are passed in as explicit parameters
or as explicit state, so that every definition is a pure function.
-/

namespace Willow

/-! ## Streaming upload engine (backend/youtube/upload_stream.py)

The engine uploads a byte buffer in fixed-size chunks through the REST
client.  The client call `upload_video_chunk` is modelled as an oracle
`resp : Nat → Nat → Nat → Except String ChunkResp` taking the first byte
offset, the last byte offset and the retry index of the attempt, and
returning either the parsed response dictionary or a raised exception
message.  The events the engine emits (chunk PUTs and retry sleeps) are
collected in a trace list so that the theorems can talk about how many
chunk uploads were issued and in which order. -/

def CHUNK_SIZE : Nat := 256 * 1024 * 1024

def MAX_RETRIES : Nat := 3

def RETRY_DELAY : Nat := 5

/-- One mebibyte, used to state sizes the way the spec states them. -/
def mib : Nat := 1024 * 1024

/-- Parsed response of one chunk PUT: the status field and the optional
video id field of the result dictionary. -/
structure ChunkResp where
  status : String
  videoId : Option String
deriving DecidableEq, Repr

/-- In-process session bookkeeping, mirroring the UploadSession class
(the fields the chunk loop reads and writes). -/
structure UploadSession where
  totalBytes : Nat
  bytesUploaded : Nat
  videoId : Option String
  status : String
  error : Option String
  retries : Nat
deriving DecidableEq, Repr

/-- Fresh session as built by upload_video_from_bytes. -/
def mkSession (total : Nat) : UploadSession :=
  { totalBytes := total
    bytesUploaded := 0
    videoId := none
    status := "initializing"
    error := none
    retries := 0 }

/-- Observable actions of the engine: a chunk PUT for a byte range at a
given retry index, or a sleep between retry attempts. -/
inductive UploadEvent where
  | chunkUpload (startByte endByte len retry : Nat)
  | sleep (seconds : Nat)
deriving DecidableEq, Repr

/-- Outcome of the per-chunk retry loop. -/
inductive ChunkLoopResult where
  | completed (videoId : Option String)
  | progressed
  | failed (msg : String)
deriving DecidableEq, Repr

/-- The for-retry-in-range(MAX_RETRIES) loop around one chunk PUT in
_upload_bytes_chunks.  The chunk covers bytes [start, endE); the PUT is
issued for the inclusive range start ... endE - 1.  On a complete
response the session records the video id, jumps to the total and is
marked completed; on any other response the session advances to endE; on
an exception the retry counter is bumped and, at retry index
MAX_RETRIES - 1, the session is marked failed with the error recorded,
otherwise the engine sleeps RETRY_DELAY seconds and tries again.
attemptsLeft is structural fuel equal to MAX_RETRIES - retryIdx, which
the retry-exhaustion branch always cuts off before it runs out. -/
def chunkAttempts (resp : Nat → Nat → Nat → Except String ChunkResp)
    (startB endE : Nat) :
    Nat → Nat → UploadSession → List UploadEvent × UploadSession × ChunkLoopResult
  | 0, _, s => ([], s, .failed "")
  | attemptsLeft + 1, retryIdx, s =>
    let ev := UploadEvent.chunkUpload startB (endE - 1) (endE - startB) retryIdx
    match resp startB (endE - 1) retryIdx with
    | .ok r =>
      if r.status = "complete" then
        ([ev],
         { s with videoId := r.videoId, bytesUploaded := s.totalBytes,
                  status := "completed" },
         .completed r.videoId)
      else
        ([ev], { s with bytesUploaded := endE }, .progressed)
    | .error e =>
      let s' := { s with retries := s.retries + 1 }
      if retryIdx = MAX_RETRIES - 1 then
        ([ev], { s' with status := "failed", error := some e },
         .failed ("Failed to upload chunk after " ++ toString MAX_RETRIES
                  ++ " retries: " ++ e))
      else
        let rest := chunkAttempts resp startB endE attemptsLeft (retryIdx + 1) s'
        (ev :: .sleep RETRY_DELAY :: rest.1, rest.2)

/-- The while-loop of _upload_bytes_chunks.  Each iteration checks the
cancellation set, slices the next chunk of at most CHUNK_SIZE bytes and
runs the retry loop on it.  Leaving the while loop without returning a
video id raises the no-data error, exactly as the statement after the
loop does.  fuel only bounds the iteration count; every productive
iteration advances bytesUploaded by at least one byte, so
totalBytes + 1 iterations always suffice. -/
def uploadLoop (resp : Nat → Nat → Nat → Except String ChunkResp)
    (sessionId : Option String) (cancelledUploads : List String) :
    Nat → UploadSession → List UploadEvent × UploadSession × Except String (Option String)
  | 0, s => ([], s, .error "out of fuel")
  | fuel + 1, s =>
    if s.bytesUploaded < s.totalBytes then
      if (sessionId.map (cancelledUploads.contains ·)).getD false then
        ([], { s with status := "cancelled" }, .error "Upload cancelled by user")
      else
        let startB := s.bytesUploaded
        let endE := min (startB + CHUNK_SIZE) s.totalBytes
        if endE - startB = 0 then
          ([], s, .error "No data to upload")
        else
          match chunkAttempts resp startB endE MAX_RETRIES 0 s with
          | (evs, s', .completed vid) => (evs, s', .ok vid)
          | (evs, s', .failed msg) => (evs, s', .error msg)
          | (evs, s', .progressed) =>
            let rest := uploadLoop resp sessionId cancelledUploads fuel s'
            (evs ++ rest.1, rest.2)
    else
      ([], s, .error "No data to upload")

/-- The _upload_bytes_chunks entry point: mark the session uploading and
run the chunk loop to completion. -/
def uploadBytesChunks (resp : Nat → Nat → Nat → Except String ChunkResp)
    (sessionId : Option String) (cancelledUploads : List String)
    (total : Nat) : List UploadEvent × UploadSession × Except String (Option String) :=
  uploadLoop resp sessionId cancelledUploads (total + 1)
    { mkSession total with status := "uploading" }

/-- Provider behaviour for a normally completing upload: every chunk is
acknowledged as incomplete except the one that ends at the final byte,
which is acknowledged complete with the provider-supplied video id. -/
def normalResp (total : Nat) (vid : String) :
    Nat → Nat → Nat → Except String ChunkResp := fun _ endB _ =>
  if endB + 1 = total then .ok ⟨"complete", some vid⟩ else .ok ⟨"incomplete", none⟩

/-! ## OAuth handler (backend/youtube/oauth.py)

Timestamps are modelled as integers counting microseconds, the
resolution of the datetime values the source compares. -/

/-- The static scope to capability table SCOPE_CAPABILITIES. -/
def SCOPE_CAPABILITIES : List (String × List String) :=
  [("https://www.googleapis.com/auth/youtube.upload", ["upload"]),
   ("https://www.googleapis.com/auth/youtube.readonly", ["management"]),
   ("https://www.googleapis.com/auth/yt-analytics.readonly", ["analytics"]),
   ("https://www.googleapis.com/auth/yt-analytics-monetary.readonly", ["monetization"]),
   ("https://www.googleapis.com/auth/youtube.force-ssl", ["streaming", "management"]),
   ("https://www.googleapis.com/auth/youtubepartner", ["monetization", "management"]),
   ("https://www.googleapis.com/auth/youtube.channel-memberships.creator", ["monetization"])]

/-- The capabilities dictionary initialised by get_capabilities_from_scopes;
its keys are exactly the five capability names, all starting false. -/
structure Capabilities where
  upload : Bool
  analytics : Bool
  monetization : Bool
  streaming : Bool
  management : Bool
deriving DecidableEq, Repr

def initialCapabilities : Capabilities :=
  ⟨false, false, false, false, false⟩

/-- Dictionary assignment capabilities[capability] = True.  The table only
ever supplies the five fixed names, so the fallthrough branch is never
reached from get_capabilities_from_scopes. -/
def setCapability (c : Capabilities) (name : String) : Capabilities :=
  if name = "upload" then { c with upload := true }
  else if name = "analytics" then { c with analytics := true }
  else if name = "monetization" then { c with monetization := true }
  else if name = "streaming" then { c with streaming := true }
  else if name = "management" then { c with management := true }
  else c

/-- get_capabilities_from_scopes: fold over the granted scopes, looking
each one up in the static table (missing scopes contribute the empty
list) and setting every capability the table maps it to. -/
def getCapabilitiesFromScopes (scopes : List String) : Capabilities :=
  scopes.foldl
    (fun caps scope =>
      ((SCOPE_CAPABILITIES.lookup scope).getD []).foldl setCapability caps)
    initialCapabilities

/-- is_token_expired: true iff now plus the buffer reaches the expiry.
Times are in microseconds; the buffer argument is in minutes. -/
def isTokenExpired (now expiry : Int) (bufferMinutes : Int) : Bool :=
  decide (now + bufferMinutes * 60 * 1000000 ≥ expiry)

/-! ## Shared type definitions (backend/youtube/types.py) -/

/-- The fixed allow-list of YouTube category codes accepted by the
category validator. -/
def validCategories : List String :=
  ["1", "2", "10", "15", "17", "19", "20", "22", "23", "24", "25", "26",
   "27", "28"]

/-- validate_category: an unrecognised code falls back to 22. -/
def validateCategory (v : String) : String :=
  if v ∈ validCategories then v else "22"

/-- validate_tags: the total character count of all tags is capped at
500, otherwise pydantic raises. -/
def validateTags (tags : List String) : Except String (List String) :=
  if (tags.map String.length).sum > 500 then
    .error "Total character count of all tags cannot exceed 500"
  else .ok tags

/-- Video metadata record with the fields the claims touch. -/
structure YouTubeVideoMetadata where
  title : String
  description : String
  tags : List String
  categoryId : String
  privacyStatus : String
  madeForKids : Bool
  notifySubscribers : Bool
deriving DecidableEq, Repr

/-- Constructing YouTubeVideoMetadata: pydantic enforces the declared
field constraints (title 1 to 100 characters, description up to 5000,
at most 500 tags) and runs the two validators. -/
def mkVideoMetadata (title description : String) (tags : List String)
    (categoryId : String) : Except String YouTubeVideoMetadata :=
  if title.length < 1 ∨ title.length > 100 then
    .error "title length out of range"
  else if description.length > 5000 then
    .error "description too long"
  else if tags.length > 500 then
    .error "too many tags"
  else
    (validateTags tags).map fun ts =>
      { title := title
        description := description
        tags := ts
        categoryId := validateCategory categoryId
        privacyStatus := "private"
        madeForKids := false
        notifySubscribers := true }

/-! ## Count abbreviation (backend/api/youtube/channels.py, _format_count)

The helper formats count / 10^k as a Python float with one decimal
place.  Python true division of two integers produces the IEEE binary64
double nearest to the exact quotient, ties going to the even 53-bit
significand, and raises OverflowError beyond the binary64 range; the
percent-point-one-f format then renders that double correctly rounded
to one decimal digit, again ties to even.  Both roundings are modelled
exactly with scaled integer arithmetic: for 1 <= a / b the nearest
double is m * 2 ^ (e - 52) where 2 ^ e <= a / b < 2 ^ (e + 1) and m is
the half-even rounding of (a / b) / 2 ^ (e - 52), and the rendered
digits come from the half-even rounding of ten times that double.
No floating point computation is approximated. -/

/-- Half-even rounding of the fraction num / den to an integer. -/
def rheNat (num den : ℕ) : ℕ :=
  let f := num / den
  let r := num % den
  if 2 * r < den then f
  else if den < 2 * r then f + 1
  else if f % 2 = 0 then f else f + 1

/-- Floor of the base-two logarithm, by structural recursion on fuel. -/
def log2fuel : ℕ → ℕ → ℕ
  | 0, _ => 0
  | fuel + 1, n => if 2 ≤ n then log2fuel fuel (n / 2) + 1 else 0

/-- Floor of the base-two logarithm of n; n units of fuel always
suffice. -/
def floorLog2 (n : ℕ) : ℕ :=
  log2fuel n n

/-- Significand and exponent of the binary64 double nearest to a / b,
for 1 <= a / b: the double is m * 2 ^ (e - 52). -/
def doubleSig (a b : ℕ) : ℕ × ℕ :=
  let e := floorLog2 (a / b)
  let m :=
    if 52 ≤ e then rheNat a (b * 2 ^ (e - 52))
    else rheNat (a * 2 ^ (52 - e)) b
  (m, e)

/-- Whether Python a / b overflows the binary64 range, that is, whether
the rounded value m * 2 ^ (e - 52) reaches 2 ^ 1024. -/
def pyDivOverflows (a b : ℕ) : Bool :=
  let p := doubleSig a b
  if 52 ≤ p.2 then decide (2 ^ 1024 ≤ p.1 * 2 ^ (p.2 - 52))
  else decide (2 ^ 1024 * 2 ^ (52 - p.2) ≤ p.1)

/-- Python f-string percent-point-one-f rendering of the true division
a / b, for 1 <= a / b: OverflowError past the double range, otherwise
the integer part and single decimal digit of the double rounded to the
nearest tenth, ties to even. -/
def pyDivFormatFixed1 (a b : ℕ) : Except String String :=
  if pyDivOverflows a b then
    .error "OverflowError: integer division result too large for a float"
  else
    let p := doubleSig a b
    let n :=
      if 52 ≤ p.2 then 10 * (p.1 * 2 ^ (p.2 - 52))
      else rheNat (10 * p.1) (2 ^ (52 - p.2))
    .ok (Nat.repr (n / 10) ++ "." ++ Nat.repr (n % 10))

/-- The _format_count helper. -/
def formatCount (count : ℕ) : Except String String :=
  if count ≥ 1000000000 then
    (pyDivFormatFixed1 count 1000000000).map (fun s => s ++ "B")
  else if count ≥ 1000000 then
    (pyDivFormatFixed1 count 1000000).map (fun s => s ++ "M")
  else if count ≥ 1000 then
    (pyDivFormatFixed1 count 1000).map (fun s => s ++ "K")
  else .ok (Nat.repr count)

/-! ## MCP manager qualified-name derivation (backend/agent/run.py,
MCPManager.register_mcp_tools) -/

/-- One entry of the custom_mcps list of an agent configuration; only
the keys the qualified-name derivation reads are modelled.  A missing
dictionary key is none. -/
structure CustomMCPEntry where
  name : String
  typ : Option String
  customType : Option String
  qualifiedName : Option String
deriving DecidableEq, Repr

/-- The slug: spaces replaced with underscores, then lower-cased.  The
replacement pattern is the single space character, so the replace call
is a character-by-character map. -/
def slugify (s : String) : String :=
  ⟨(s.data.map (fun c => if c = ' ' then '_' else c)).map Char.toLower⟩

/-- The qualified name register_mcp_tools stores for a custom entry.
The effective type is customType, falling back to type, falling back to
sse.  A composio entry keeps an already present, non-empty qualified
name and otherwise derives composio dot slug; every other entry,
social-media included, is unconditionally given custom underscore type
underscore slug. -/
def deriveQualifiedName (e : CustomMCPEntry) : String :=
  let customType := e.customType.getD (e.typ.getD "sse")
  if customType = "composio" then
    let qn := e.qualifiedName.getD ""
    if qn = "" then "composio." ++ slugify e.name else qn
  else
    "custom_" ++ customType ++ "_" ++ slugify e.name

/-! ## Agent run loop (backend/agent/run.py, AgentRunner.run)

The loop is embedded from the first statement of the while loop onward;
everything before it (setup, tool registration, prompt building) yields
nothing.  The billing check, the latest-message guard and the model turn
are external effects and enter as per-iteration oracles; iteration
numbers are 1-based, matching iteration_count after its increment. -/

/-- One chunk yielded to the caller.  Only status chunks are
distinguished; everything streamed from a model turn is carried
opaquely by the oracle below. -/
structure AgentChunk where
  type : String
  status : String
  message : String
deriving DecidableEq, Repr

/-- Outcome of one model turn as the loop body observes it: an
immediate top-level error response dictionary, a streamed response
together with the error and termination flags the stream interpreter
derives from it, or an exception raised by run_thread. -/
inductive TurnResult where
  | topError (chunk : AgentChunk)
  | stream (chunks : List AgentChunk) (errorDetected terminate : Bool)
  | exn (msg : String)
deriving DecidableEq, Repr

/-- The while loop of AgentRunner.run.  Returns the yielded chunks and
the number of model turns executed.  fuel is structural; maxIterations
iterations always suffice because every pass increments the count. -/
def agentLoop (maxIterations : Nat) (billing : Nat → Bool × String)
    (latestAssistant : Nat → Bool) (turn : Nat → TurnResult) :
    Nat → Nat → List AgentChunk × Nat
  | 0, _ => ([], 0)
  | fuel + 1, count =>
    if count < maxIterations then
      let count := count + 1
      let billingResult := billing count
      if ¬billingResult.1 then
        ([⟨"status", "stopped", "Billing limit reached: " ++ billingResult.2⟩], 0)
      else if latestAssistant count then
        ([], 0)
      else
        match turn count with
        | .topError c => ([c], 1)
        | .exn m => ([⟨"status", "error", "Error running thread: " ++ m⟩], 1)
        | .stream chunks errorDetected terminate =>
          if errorDetected then (chunks, 1)
          else if terminate then (chunks, 1)
          else
            let rest := agentLoop maxIterations billing latestAssistant turn fuel count
            (chunks ++ rest.1, rest.2 + 1)
    else ([], 0)

/-- AgentRunner.run from the top of the while loop, starting at
iteration count zero. -/
def agentRun (maxIterations : Nat) (billing : Nat → Bool × String)
    (latestAssistant : Nat → Bool) (turn : Nat → TurnResult) :
    List AgentChunk × Nat :=
  agentLoop maxIterations billing latestAssistant turn maxIterations 0

/-! ## File reference manager (backend/youtube/file_manager.py)

The database and the on-disk store are explicit state.  Rows live in a
list; the clock is an integer microsecond timestamp passed in.  The
source functions get_file_reference and delete_file_reference call each
other: a read of an expired row triggers a delete, and a delete first
re-reads the row.  On an expired row this mutual recursion only stops
when the Python recursion limit is reached, the resulting RecursionError
being swallowed by the broad exception handler of whichever of the two
is active at the bottom; fuel models the remaining recursion depth and
the fuel-zero cases return exactly what those handlers return: absent
with the state untouched, and false with the state untouched. -/

/-- One stored video file reference row. -/
structure VideoFileReference where
  id : String
  userId : String
  fileName : String
  filePath : Option String
  fileSize : Nat
  mimeType : String
  checksum : Option String
  uploadedAt : Int
  expiresAt : Int
  isTemporary : Bool
deriving DecidableEq, Repr

/-- Database plus filesystem state for the file manager, with counters
for the delete operations actually executed against each store. -/
structure FMState where
  rows : List VideoFileReference
  files : List String
  dbDeletes : Nat
  fsDeletes : Nat
deriving DecidableEq, Repr

/-- The select single row query of get_file_reference: the row with the
given id owned by the given user. -/
def lookupRef (u i : String) (rows : List VideoFileReference) :
    Option VideoFileReference :=
  rows.find? (fun r => r.id == i && r.userId == u)

mutual

/-- get_file_reference: absent when the row is missing or owned by
someone else; on an expired row, delete it and return absent. -/
def getFileReference : Nat → String → String → Int → FMState →
    Option VideoFileReference × FMState
  | 0, _, _, _, st => (none, st)
  | fuel + 1, u, i, now, st =>
    match lookupRef u i st.rows with
    | none => (none, st)
    | some r =>
      if r.expiresAt < now then
        (none, (deleteFileReference fuel u i now st).2)
      else (some r, st)

/-- delete_file_reference: re-read the reference, remove the on-disk
file when the reference is temporary and the file exists, then delete
the database row. -/
def deleteFileReference : Nat → String → String → Int → FMState →
    Bool × FMState
  | 0, _, _, _, st => (false, st)
  | fuel + 1, u, i, now, st =>
    let got := getFileReference fuel u i now st
    let st1 := got.2
    let st2 :=
      match got.1 with
      | some r =>
        match r.filePath with
        | some p =>
          if r.isTemporary && st1.files.contains p then
            { st1 with files := st1.files.erase p, fsDeletes := st1.fsDeletes + 1 }
          else st1
        | none => st1
      | none => st1
    (true,
     { st2 with
       rows := st2.rows.filter (fun r => ¬(r.id == i && r.userId == u)),
       dbDeletes := st2.dbDeletes + 1 })

end

/-- Configuration and host environment of the file manager.  Path
resolution, the filesystem predicates and the MIME type guesser are
library and operating system services, passed in as oracles. -/
structure FileManagerEnv where
  allowFilesystemUploads : Bool
  allowedUploadPaths : List String
  maxFileSize : Nat
  fileExpiryHours : Int
  storagePath : String
  resolve : String → String
  isRelativeTo : String → String → Bool
  pathExists : String → Bool
  pathIsFile : String → Bool
  pathFileSize : String → Nat
  pathName : String → String
  pathSuffix : String → String
  guessType : String → Option String
  sha256Hex : List Nat → String

/-- Python str.startswith, stated on the character sequence. -/
def strStartsWith (s p : String) : Bool :=
  s.data.take p.data.length == p.data

/-- The mimetypes guess with the falsy check of the source: a missing or
empty guess falls back to video slash mp4. -/
def guessOrDefault (g : Option String) : String :=
  let m := g.getD ""
  if m = "" then "video/mp4" else m

/-- create_file_reference: the byte-upload route.  Rejects oversized
data, infers the MIME type when none is supplied, rejects MIME types
that are neither video nor image, stores the bytes under the storage
root and records a temporary reference with a checksum. -/
def createFileReference (env : FileManagerEnv) (userId : String)
    (fileData : List Nat) (fileName : String) (mimeType : Option String)
    (newId : String) (now : Int) : Except String VideoFileReference :=
  let fileSize := fileData.length
  if fileSize > env.maxFileSize then
    .error ("File too large: " ++ Nat.repr fileSize)
  else
    let mime :=
      if (mimeType.getD "") = "" then guessOrDefault (env.guessType fileName)
      else mimeType.getD ""
    if ¬strStartsWith mime "video/" && ¬strStartsWith mime "image/" then
      .error ("Invalid file type: " ++ mime)
    else
      let extension :=
        if env.pathSuffix fileName = "" then ".mp4" else env.pathSuffix fileName
      .ok
        { id := newId
          userId := userId
          fileName := fileName
          filePath := some (env.storagePath ++ "/" ++ userId ++ "/" ++ newId ++ extension)
          fileSize := fileSize
          mimeType := mime
          checksum := some (env.sha256Hex fileData)
          uploadedAt := now
          expiresAt := now + env.fileExpiryHours * 3600 * 1000000
          isTemporary := true }

/-- create_file_reference_from_path: the development-mode filesystem
route.  Requires the gate to be enabled; when an allow-list is
configured the resolved path must fall under one of its non-empty
entries; the path must exist, be a regular file and fit the size limit.
No MIME restriction is applied; the stored reference points at the
original path, is not temporary and carries no checksum. -/
def createFileReferenceFromPath (env : FileManagerEnv) (userId : String)
    (filePath : String) (newId : String) (now : Int) :
    Except String VideoFileReference :=
  if ¬env.allowFilesystemUploads then
    .error "File system uploads are not enabled. Use the file upload endpoint to upload files."
  else
    let resolved := env.resolve filePath
    if env.allowedUploadPaths ≠ [] ∧
        ¬env.allowedUploadPaths.any
          (fun a => a ≠ "" && env.isRelativeTo resolved (env.resolve a)) then
      .error ("File path not in allowed directories: " ++ filePath)
    else if ¬env.pathExists resolved then
      .error ("File not found: " ++ filePath)
    else if ¬env.pathIsFile resolved then
      .error ("Path is not a file: " ++ filePath)
    else if env.pathFileSize resolved > env.maxFileSize then
      .error ("File too large: " ++ Nat.repr (env.pathFileSize resolved))
    else
      .ok
        { id := newId
          userId := userId
          fileName := env.pathName resolved
          filePath := some resolved
          fileSize := env.pathFileSize resolved
          mimeType := guessOrDefault (env.guessType resolved)
          checksum := none
          uploadedAt := now
          expiresAt := now + env.fileExpiryHours * 3600 * 1000000
          isTemporary := false }

/-! ## Theorems -/

/-- C1: a 600 MiB in-memory source with the 256 MiB chunk size is
uploaded as exactly three chunk PUTs of 256, 256 and 88 MiB in strict
byte order, and the complete response on the final chunk leaves the
session with bytes uploaded equal to the total size, status completed,
and makes the engine return the provider-supplied video id. -/
theorem upload_engine_completion_600MiB (vid : String) :
    uploadBytesChunks (normalResp (600 * mib) vid) none [] (600 * mib) =
      ([.chunkUpload 0 (256 * mib - 1) (256 * mib) 0,
        .chunkUpload (256 * mib) (512 * mib - 1) (256 * mib) 0,
        .chunkUpload (512 * mib) (600 * mib - 1) (88 * mib) 0],
       { totalBytes := 600 * mib, bytesUploaded := 600 * mib,
         videoId := some vid, status := "completed", error := none,
         retries := 0 },
       .ok (some vid)) := rfl

/-- Helper for C2: when all three attempts on a chunk raise, the retry
loop issues exactly three PUTs with a RETRY_DELAY sleep between
consecutive attempts, bumps the retry counter to three, marks the
session failed with the last error recorded, and fails with the message
naming three retries. -/
theorem chunkAttempts_all_fail (resp : Nat → Nat → Nat → Except String ChunkResp)
    (b endE : Nat) (s : UploadSession) (e : Nat → String)
    (h0 : resp b (endE - 1) 0 = .error (e 0))
    (h1 : resp b (endE - 1) 1 = .error (e 1))
    (h2 : resp b (endE - 1) 2 = .error (e 2)) :
    chunkAttempts resp b endE MAX_RETRIES 0 s =
      ([.chunkUpload b (endE - 1) (endE - b) 0, .sleep RETRY_DELAY,
        .chunkUpload b (endE - 1) (endE - b) 1, .sleep RETRY_DELAY,
        .chunkUpload b (endE - 1) (endE - b) 2],
       { s with retries := s.retries + 3, status := "failed",
                error := some (e 2) },
       .failed ("Failed to upload chunk after 3 retries: " ++ e 2)) := by
  simp [chunkAttempts, MAX_RETRIES, h0, h1, h2]
  rfl

/-- C2: from any uncancelled loop state with bytes still to send, if
every attempt on the next chunk fails, the engine makes exactly 3
attempts with a 5-second pause between consecutive attempts, then fails
the whole upload with the error naming 3 retries, the session status
becoming failed with the last error recorded. -/
theorem upload_engine_retry_exhaustion
    (resp : Nat → Nat → Nat → Except String ChunkResp)
    (sid : Option String) (cs : List String) (fuel : Nat)
    (s : UploadSession) (e : Nat → String)
    (hc : ∀ x, sid = some x → x ∉ cs)
    (h : s.bytesUploaded < s.totalBytes)
    (h0 : resp s.bytesUploaded
      (min (s.bytesUploaded + CHUNK_SIZE) s.totalBytes - 1) 0 = .error (e 0))
    (h1 : resp s.bytesUploaded
      (min (s.bytesUploaded + CHUNK_SIZE) s.totalBytes - 1) 1 = .error (e 1))
    (h2 : resp s.bytesUploaded
      (min (s.bytesUploaded + CHUNK_SIZE) s.totalBytes - 1) 2 = .error (e 2)) :
    uploadLoop resp sid cs (fuel + 1) s =
      (let b := s.bytesUploaded
       let endL := min (s.bytesUploaded + CHUNK_SIZE) s.totalBytes - 1
       let len := min (s.bytesUploaded + CHUNK_SIZE) s.totalBytes - s.bytesUploaded
       ([.chunkUpload b endL len 0, .sleep RETRY_DELAY,
         .chunkUpload b endL len 1, .sleep RETRY_DELAY,
         .chunkUpload b endL len 2],
        { s with retries := s.retries + 3, status := "failed",
                 error := some (e 2) },
        .error ("Failed to upload chunk after 3 retries: " ++ e 2))) := by
  have hend : ¬(min (s.bytesUploaded + CHUNK_SIZE) s.totalBytes - s.bytesUploaded = 0) := by
    have hlt : s.bytesUploaded < min (s.bytesUploaded + CHUNK_SIZE) s.totalBytes :=
      Nat.lt_min.mpr ⟨Nat.lt_add_of_pos_right (by decide), h⟩
    omega
  have hca := chunkAttempts_all_fail resp s.bytesUploaded
    (min (s.bytesUploaded + CHUNK_SIZE) s.totalBytes) s e h0 h1 h2
  have hc' : (sid.map (fun x => decide (x ∈ cs))).getD false = false := by
    cases sid with
    | none => rfl
    | some a => simp [hc a rfl]
  simp [uploadLoop, h, hend, hca, hc']

/-- Witness for C2 at a concrete 10-byte upload whose provider raises on
every attempt. -/
theorem upload_engine_retry_exhaustion_witness :
    uploadBytesChunks (fun _ _ _ => .error "boom") none [] 10 =
      ([.chunkUpload 0 9 10 0, .sleep 5, .chunkUpload 0 9 10 1, .sleep 5,
        .chunkUpload 0 9 10 2],
       { totalBytes := 10, bytesUploaded := 0, videoId := none,
         status := "failed", error := some "boom", retries := 3 },
       .error "Failed to upload chunk after 3 retries: boom") := by
  have h := upload_engine_retry_exhaustion (fun _ _ _ => .error "boom")
    none [] 10 { mkSession 10 with status := "uploading" } (fun _ => "boom")
    (fun x hx => by cases hx) (by decide) rfl rfl rfl
  exact h.trans (by rfl)

/-- C3: with the default 5-minute buffer, is_token_expired holds exactly
when now plus five minutes reaches the expiry; the boundary is
inclusive, and one second past the boundary is not yet expired. -/
theorem token_expiry_boundary (now expiry : Int) :
    (isTokenExpired now expiry 5 = true ↔ now + 5 * 60 * 1000000 ≥ expiry) ∧
    isTokenExpired now (now + 300 * 1000000) 5 = true ∧
    isTokenExpired now (now + 300 * 1000000 + 1000000) 5 = false := by
  refine ⟨?_, ?_, ?_⟩
  · simp [isTokenExpired]
  · simp [isTokenExpired]
  · simp [isTokenExpired]

/-- Witness for C3 evaluating the boundary checks at time zero. -/
theorem token_expiry_boundary_witness :
    isTokenExpired 0 (0 + 300 * 1000000) 5 = true ∧
    isTokenExpired 0 (0 + 300 * 1000000 + 1000000) 5 = false :=
  ⟨(token_expiry_boundary 0 17).2.1, (token_expiry_boundary 0 17).2.2⟩

/-- C8: an unrecognised category id falls back to 22, an allow-listed
one survives construction unchanged. -/
theorem category_validation :
    (∀ v, v ∉ validCategories → validateCategory v = "22") ∧
    (∀ v ∈ validCategories, validateCategory v = v) ∧
    (mkVideoMetadata "My Video" "" [] "999").map (fun m => m.categoryId) =
      .ok "22" ∧
    (mkVideoMetadata "My Video" "" [] "20").map (fun m => m.categoryId) =
      .ok "20" := by
  refine ⟨?_, ?_, by rfl, by rfl⟩
  · intro v hv
    simp [validateCategory, hv]
  · intro v hv
    simp [validateCategory, hv]

/-- Witness for C8 evaluating the validator at the two example category
codes. -/
theorem category_validation_witness :
    validateCategory "999" = "22" ∧ validateCategory "20" = "20" :=
  ⟨category_validation.1 "999" (by decide),
   category_validation.2.1 "20" (by decide)⟩

/-- Helper for C4: a capability projection commuting with one dictionary
assignment commutes with the fold over an assignment list. -/
theorem foldl_setCapability_proj (proj : Capabilities → Bool) (capName : String)
    (hset : ∀ c x, proj (setCapability c x) = (proj c || (x == capName))) :
    ∀ (l : List String) (c : Capabilities),
      proj (l.foldl setCapability c) = (proj c || l.contains capName) := by
  intro l
  induction l with
  | nil => intro c; simp
  | cons x xs ih =>
    intro c
    simp [List.foldl_cons, ih, hset, List.contains_cons, Bool.or_assoc]
    rw [Bool.eq_iff_iff]
    simp [beq_iff_eq]
    tauto

/-- Helper for C4: each capability of get_capabilities_from_scopes is
the disjunction, over the granted scopes, of that capability appearing
in the static table entry of the scope. -/
theorem caps_proj (proj : Capabilities → Bool) (capName : String)
    (hset : ∀ c x, proj (setCapability c x) = (proj c || (x == capName)))
    (hinit : proj initialCapabilities = false) :
    ∀ scopes : List String,
      proj (getCapabilitiesFromScopes scopes) =
        scopes.any
          (fun s => ((SCOPE_CAPABILITIES.lookup s).getD []).contains capName) := by
  have main : ∀ (scopes : List String) (c : Capabilities),
      proj (scopes.foldl
          (fun caps scope =>
            ((SCOPE_CAPABILITIES.lookup scope).getD []).foldl setCapability caps) c) =
        (proj c || scopes.any
          (fun s => ((SCOPE_CAPABILITIES.lookup s).getD []).contains capName)) := by
    intro scopes
    induction scopes with
    | nil => intro c; simp
    | cons x xs ih =>
      intro c
      simp [List.foldl_cons, ih, foldl_setCapability_proj proj capName hset,
        Bool.or_assoc]
  intro scopes
  simp [getCapabilitiesFromScopes, main, hinit]

/-- C4: a capability is granted exactly when some granted scope maps to
it in the static table, scopes outside the table contributing nothing,
and the upload plus readonly scope pair yields upload and management
only. -/
theorem scope_capability_mapping :
    (∀ scopes : List String,
      ((getCapabilitiesFromScopes scopes).upload = true ↔
        ∃ s ∈ scopes, "upload" ∈ (SCOPE_CAPABILITIES.lookup s).getD []) ∧
      ((getCapabilitiesFromScopes scopes).analytics = true ↔
        ∃ s ∈ scopes, "analytics" ∈ (SCOPE_CAPABILITIES.lookup s).getD []) ∧
      ((getCapabilitiesFromScopes scopes).monetization = true ↔
        ∃ s ∈ scopes, "monetization" ∈ (SCOPE_CAPABILITIES.lookup s).getD []) ∧
      ((getCapabilitiesFromScopes scopes).streaming = true ↔
        ∃ s ∈ scopes, "streaming" ∈ (SCOPE_CAPABILITIES.lookup s).getD []) ∧
      ((getCapabilitiesFromScopes scopes).management = true ↔
        ∃ s ∈ scopes, "management" ∈ (SCOPE_CAPABILITIES.lookup s).getD [])) ∧
    getCapabilitiesFromScopes
      ["https://www.googleapis.com/auth/youtube.upload",
       "https://www.googleapis.com/auth/youtube.readonly"] =
      { upload := true, analytics := false, monetization := false,
        streaming := false, management := true } := by
  constructor
  · intro scopes
    have hu := caps_proj (fun c => c.upload) "upload"
      (by intro c x; simp only [setCapability]; split_ifs <;> simp_all) rfl scopes
    have ha := caps_proj (fun c => c.analytics) "analytics"
      (by intro c x; simp only [setCapability]; split_ifs <;> simp_all) rfl scopes
    have hm := caps_proj (fun c => c.monetization) "monetization"
      (by intro c x; simp only [setCapability]; split_ifs <;> simp_all) rfl scopes
    have hs := caps_proj (fun c => c.streaming) "streaming"
      (by intro c x; simp only [setCapability]; split_ifs <;> simp_all) rfl scopes
    have hg := caps_proj (fun c => c.management) "management"
      (by intro c x; simp only [setCapability]; split_ifs <;> simp_all) rfl scopes
    simp only at hu ha hm hs hg
    rw [hu, ha, hm, hs, hg]
    simp [List.any_eq_true]
  · decide

/-- Witness for C4 deriving a concrete streaming capability through the
characterisation. -/
theorem scope_capability_mapping_witness :
    (getCapabilitiesFromScopes
      ["https://www.googleapis.com/auth/youtube.force-ssl"]).streaming = true :=
  (scope_capability_mapping.1 _).2.2.2.1.mpr
    ⟨"https://www.googleapis.com/auth/youtube.force-ssl", by decide, by decide⟩

/-- Counterexample for C6 as frozen: a non-composio entry that already
carries a qualified name does not keep it; the synthetic name replaces
it. -/
theorem mcp_qualified_name_counterexample :
    deriveQualifiedName
      { name := "My Tool", typ := some "sse", customType := none,
        qualifiedName := some "already.configured" } = "custom_sse_my_tool" ∧
    "custom_sse_my_tool" ≠ "already.configured" := by
  constructor
  · rfl
  · decide

/-- C6 (amended): a composio entry keeps an already present non-empty
qualified name and otherwise gets composio dot slug; every non-composio
entry always gets custom underscore type underscore slug, whether or not
a qualified name was present; slugs replace spaces with underscores and
lower-case. -/
theorem mcp_qualified_name_derivation :
    (∀ e : CustomMCPEntry, e.customType.getD (e.typ.getD "sse") = "composio" →
      (∀ qn, e.qualifiedName = some qn → qn ≠ "" →
        deriveQualifiedName e = qn) ∧
      (e.qualifiedName.getD "" = "" →
        deriveQualifiedName e = "composio." ++ slugify e.name)) ∧
    (∀ e : CustomMCPEntry, e.customType.getD (e.typ.getD "sse") ≠ "composio" →
      deriveQualifiedName e =
        "custom_" ++ e.customType.getD (e.typ.getD "sse") ++ "_" ++ slugify e.name) ∧
    deriveQualifiedName
      { name := "My Tool", typ := some "sse", customType := none,
        qualifiedName := none } = "custom_sse_my_tool" ∧
    deriveQualifiedName
      { name := "Gmail Search", typ := none, customType := some "composio",
        qualifiedName := none } = "composio.gmail_search" := by
  refine ⟨?_, ?_, by rfl, by rfl⟩
  · intro e he
    constructor
    · intro qn hqn hne
      simp [deriveQualifiedName, he, hqn, hne]
    · intro hqn
      simp [deriveQualifiedName, he, hqn]
  · intro e he
    simp [deriveQualifiedName, he]

/-- Witness for C6 at concrete entries: a composio entry with a stored
qualified name keeps it, and an sse entry with a stored qualified name
still receives the synthetic one. -/
theorem mcp_qualified_name_derivation_witness :
    deriveQualifiedName
      { name := "Gmail Search", typ := none, customType := some "composio",
        qualifiedName := some "composio.gmail_preset" } = "composio.gmail_preset" ∧
    deriveQualifiedName
      { name := "My Tool", typ := some "sse", customType := none,
        qualifiedName := some "kept.elsewhere" } = "custom_sse_my_tool" := by
  constructor
  · exact (mcp_qualified_name_derivation.1
      { name := "Gmail Search", typ := none, customType := some "composio",
        qualifiedName := some "composio.gmail_preset" } (by decide)).1
      "composio.gmail_preset" rfl (by decide)
  · exact (mcp_qualified_name_derivation.2.1
      { name := "My Tool", typ := some "sse", customType := none,
        qualifiedName := some "kept.elsewhere" } (by decide)).trans (by rfl)

/-- C5: when the billing check refuses the run on the very first
iteration, the run yields exactly one stopped status chunk carrying the
billing message and executes zero model turns. -/
theorem billing_short_circuit (maxIterations : Nat)
    (billing : Nat → Bool × String) (latestAssistant : Nat → Bool)
    (turn : Nat → TurnResult) (msg : String)
    (hmax : 0 < maxIterations) (hb : billing 1 = (false, msg)) :
    agentRun maxIterations billing latestAssistant turn =
      ([⟨"status", "stopped", "Billing limit reached: " ++ msg⟩], 0) := by
  obtain ⟨f, rfl⟩ : ∃ f, maxIterations = f + 1 := ⟨maxIterations - 1, by omega⟩
  simp [agentRun, agentLoop, hb]

/-- Witness for C5 at a one-iteration budget and a refusing billing
check. -/
theorem billing_short_circuit_witness :
    agentRun 1 (fun _ => (false, "limit")) (fun _ => false)
      (fun _ => .stream [] false false) =
      ([⟨"status", "stopped", "Billing limit reached: limit"⟩], 0) := by
  have h := billing_short_circuit 1 (fun _ => (false, "limit"))
    (fun _ => false) (fun _ => .stream [] false false) "limit" (by decide) rfl
  exact h.trans (by rfl)


/-- Helper for C9: half-even rounding never exceeds the rounded-down
quotient by more than one. -/
theorem rheNat_le (num den : ℕ) : rheNat num den ≤ num / den + 1 := by
  unfold rheNat
  dsimp only
  split_ifs <;> omega

/-- Helper for C9: with enough fuel, log2fuel computes the floor of the
base-two logarithm. -/
theorem log2fuel_bounds : ∀ fuel n : ℕ, 1 ≤ n → n ≤ fuel →
    2 ^ log2fuel fuel n ≤ n ∧ n < 2 ^ (log2fuel fuel n + 1) := by
  intro fuel
  induction fuel with
  | zero => intro n h1 h2; omega
  | succ f ih =>
    intro n h1 h2
    by_cases h : 2 ≤ n
    · have hrec := ih (n / 2) (by omega) (by omega)
      simp only [log2fuel, if_pos h]
      constructor
      · have hp : 2 ^ (log2fuel f (n / 2) + 1) = 2 * 2 ^ (log2fuel f (n / 2)) := by ring
        rw [hp]
        omega
      · have hp : 2 ^ (log2fuel f (n / 2) + 1 + 1) = 2 * 2 ^ (log2fuel f (n / 2) + 1) := by
          ring
        rw [hp]
        omega
    · simp only [log2fuel, if_neg h]
      omega

/-- Helper for C9: the exponent picked by the double model brackets its
argument. -/
theorem floorLog2_bounds (n : ℕ) (h : 1 ≤ n) :
    2 ^ floorLog2 n ≤ n ∧ n < 2 ^ (floorLog2 n + 1) :=
  log2fuel_bounds n n h le_rfl

/-- Helper for C9: quotients up to 10 ^ 300 stay far inside the binary64
range, so the modelled division does not overflow. -/
theorem pyDivOverflows_false (a b : ℕ) (hb : 0 < b) (hba : b ≤ a)
    (ha : a ≤ 10 ^ 300) : pyDivOverflows a b = false := by
  have hq1 : 1 ≤ a / b := (Nat.one_le_div_iff hb).mpr hba
  obtain ⟨hlo, hhi⟩ := floorLog2_bounds (a / b) hq1
  unfold pyDivOverflows doubleSig
  simp only
  by_cases hcase : 52 ≤ floorLog2 (a / b)
  · simp only [if_pos hcase, decide_eq_false_iff_not, not_le]
    have hpos : 0 < b * 2 ^ (floorLog2 (a / b) - 52) := by positivity
    have hm := rheNat_le a (b * 2 ^ (floorLog2 (a / b) - 52))
    have hdd : a / (b * 2 ^ (floorLog2 (a / b) - 52)) =
        (a / b) / 2 ^ (floorLog2 (a / b) - 52) := by
      rw [Nat.div_div_eq_div_mul]
    rw [hdd] at hm
    have hmul : rheNat a (b * 2 ^ (floorLog2 (a / b) - 52)) *
          2 ^ (floorLog2 (a / b) - 52) ≤
        ((a / b) / 2 ^ (floorLog2 (a / b) - 52) + 1) *
          2 ^ (floorLog2 (a / b) - 52) :=
      Nat.mul_le_mul_right _ hm
    have hmul2 : ((a / b) / 2 ^ (floorLog2 (a / b) - 52) + 1) *
          2 ^ (floorLog2 (a / b) - 52) =
        ((a / b) / 2 ^ (floorLog2 (a / b) - 52)) * 2 ^ (floorLog2 (a / b) - 52) +
          2 ^ (floorLog2 (a / b) - 52) := by ring
    have hmul3 : ((a / b) / 2 ^ (floorLog2 (a / b) - 52)) *
          2 ^ (floorLog2 (a / b) - 52) ≤ a / b :=
      Nat.div_mul_le_self _ _
    have h2 : 2 ^ (floorLog2 (a / b) - 52) ≤ 2 ^ floorLog2 (a / b) :=
      Nat.pow_le_pow_right (by norm_num) (by omega)
    have h3 : a / b ≤ a := Nat.div_le_self a b
    have hfin : 2 * 10 ^ 300 < 2 ^ 1024 := by norm_num
    linarith
  · simp only [if_neg hcase, decide_eq_false_iff_not, not_le]
    push_neg at hcase
    have hm := rheNat_le (a * 2 ^ (52 - floorLog2 (a / b))) b
    have ha2 : a < (a / b + 1) * b := by
      calc a = b * (a / b) + a % b := (Nat.div_add_mod a b).symm
        _ < b * (a / b) + b := Nat.add_lt_add_left (Nat.mod_lt a hb) _
        _ = (a / b + 1) * b := by ring
    have hkey : a * 2 ^ (52 - floorLog2 (a / b)) <
        ((a / b + 1) * 2 ^ (52 - floorLog2 (a / b))) * b := by
      calc a * 2 ^ (52 - floorLog2 (a / b)) <
            ((a / b + 1) * b) * 2 ^ (52 - floorLog2 (a / b)) :=
              (Nat.mul_lt_mul_right (by positivity)).mpr ha2
        _ = ((a / b + 1) * 2 ^ (52 - floorLog2 (a / b))) * b := by ring
    have hdivlt : a * 2 ^ (52 - floorLog2 (a / b)) / b <
        (a / b + 1) * 2 ^ (52 - floorLog2 (a / b)) :=
      (Nat.div_lt_iff_lt_mul hb).mpr hkey
    have hmle : rheNat (a * 2 ^ (52 - floorLog2 (a / b))) b ≤
        (a / b + 1) * 2 ^ (52 - floorLog2 (a / b)) := by omega
    have hstep : (a / b + 1) * 2 ^ (52 - floorLog2 (a / b)) ≤
        2 ^ (floorLog2 (a / b) + 1) * 2 ^ (52 - floorLog2 (a / b)) :=
      Nat.mul_le_mul_right _ (by omega)
    have hexp : 2 ^ (floorLog2 (a / b) + 1) * 2 ^ (52 - floorLog2 (a / b)) =
        2 ^ 53 := by
      rw [← pow_add]
      congr 1
      omega
    have hbig : 2 ^ 1024 ≤ 2 ^ 1024 * 2 ^ (52 - floorLog2 (a / b)) :=
      Nat.le_mul_of_pos_right _ (by positivity)
    have hfin : (2 : ℕ) ^ 53 < 2 ^ 1024 := by norm_num
    omega

/-- Helper for C9: a non-overflowing formatted division renders as an
integer part, a point, and exactly one decimal digit. -/
theorem pyDivFormatFixed1_shape (a b : ℕ) (h : pyDivOverflows a b = false) :
    ∃ n : ℕ, pyDivFormatFixed1 a b =
      .ok (Nat.repr (n / 10) ++ "." ++ Nat.repr (n % 10)) := by
  simp only [pyDivFormatFixed1, h, Bool.false_eq_true, if_false]
  exact ⟨_, rfl⟩

set_option maxRecDepth 100000 in
/-- Counterexample for C9 as frozen over every nonnegative count: far
past the binary64 range the float division raises OverflowError, so no
suffixed string is rendered at all. -/
theorem count_abbreviation_counterexample :
    formatCount (10 ^ 400) =
      .error "OverflowError: integer division result too large for a float" := by
  rfl

/-- C9 (amended): for counts up to 10 ^ 300, comfortably inside the
binary64 range, the helper returns the literal integer string below one
thousand and otherwise renders one decimal place with the K, M or B
suffix, each threshold inclusive as the spec examples require; the four
spec examples evaluate as stated. -/
theorem count_abbreviation :
    (∀ count : ℕ, count ≤ 10 ^ 300 →
      (count < 1000 → formatCount count = .ok (Nat.repr count)) ∧
      (1000 ≤ count → count < 1000000 → ∃ n : ℕ,
        formatCount count =
          .ok (Nat.repr (n / 10) ++ "." ++ Nat.repr (n % 10) ++ "K")) ∧
      (1000000 ≤ count → count < 1000000000 → ∃ n : ℕ,
        formatCount count =
          .ok (Nat.repr (n / 10) ++ "." ++ Nat.repr (n % 10) ++ "M")) ∧
      (1000000000 ≤ count → ∃ n : ℕ,
        formatCount count =
          .ok (Nat.repr (n / 10) ++ "." ++ Nat.repr (n % 10) ++ "B"))) ∧
    formatCount 999 = .ok "999" ∧
    formatCount 1500 = .ok "1.5K" ∧
    formatCount 2300000 = .ok "2.3M" ∧
    formatCount 1000000000 = .ok "1.0B" := by
  refine ⟨?_, rfl, rfl, rfl, rfl⟩
  intro count hcount
  refine ⟨?_, ?_, ?_, ?_⟩
  · intro h
    have h9 : ¬(1000000000 ≤ count) := by omega
    have h6 : ¬(1000000 ≤ count) := by omega
    have h3 : ¬(1000 ≤ count) := by omega
    simp [formatCount, h9, h6, h3]
  · intro hlo hhi
    have h9 : ¬(1000000000 ≤ count) := by omega
    have h6 : ¬(1000000 ≤ count) := by omega
    obtain ⟨n, hn⟩ := pyDivFormatFixed1_shape count 1000
      (pyDivOverflows_false count 1000 (by norm_num) (by omega) hcount)
    refine ⟨n, ?_⟩
    simp [formatCount, h9, h6, hlo, hn]
    rfl
  · intro hlo hhi
    have h9 : ¬(1000000000 ≤ count) := by omega
    obtain ⟨n, hn⟩ := pyDivFormatFixed1_shape count 1000000
      (pyDivOverflows_false count 1000000 (by norm_num) (by omega) hcount)
    refine ⟨n, ?_⟩
    simp [formatCount, h9, hlo, hn]
    rfl
  · intro hlo
    obtain ⟨n, hn⟩ := pyDivFormatFixed1_shape count 1000000000
      (pyDivOverflows_false count 1000000000 (by norm_num) (by omega) hcount)
    refine ⟨n, ?_⟩
    simp [formatCount, hlo, hn]
    rfl

/-- Witness for C9 at count 1500, discharging the bound and the branch
conditions. -/
theorem count_abbreviation_witness :
    ∃ n : ℕ, formatCount 1500 =
      .ok (Nat.repr (n / 10) ++ "." ++ Nat.repr (n % 10) ++ "K") :=
  (count_abbreviation.1 1500 (by decide)).2.1 (by decide) (by decide)


/-- Helper for C7: reading an expired row removes that row from the
database (executing at least one database delete), touches no file on
disk, and returns absent, for any remaining recursion depth.  The
number of database delete executions d depends on the depth at which
the mutual recursion of get_file_reference and delete_file_reference
bottoms out. -/
theorem getExpired : ∀ (fuel : ℕ) (u i : String) (now : Int) (st : FMState)
    (r : VideoFileReference),
    lookupRef u i st.rows = some r → r.expiresAt < now →
    ∃ d : ℕ, 0 < d ∧
      getFileReference (fuel + 2) u i now st =
        (none,
         { rows := st.rows.filter (fun x => ¬(x.id == i && x.userId == u)),
           files := st.files,
           dbDeletes := st.dbDeletes + d,
           fsDeletes := st.fsDeletes }) := by
  intro fuel
  induction fuel using Nat.strong_induction_on with
  | _ fuel ih =>
    intro u i now st r hlook hexp
    match fuel with
    | 0 =>
      refine ⟨1, by omega, ?_⟩
      simp [getFileReference, deleteFileReference, hlook, hexp]
    | 1 =>
      refine ⟨1, by omega, ?_⟩
      simp [getFileReference, deleteFileReference, hlook, hexp]
    | f + 2 =>
      obtain ⟨d, hd, hget⟩ := ih f (by omega) u i now st r hlook hexp
      refine ⟨d + 1, by omega, ?_⟩
      show getFileReference (f + 2 + 2) u i now st = _
      have h4 : f + 2 + 2 = (f + 3) + 1 := by omega
      rw [h4]
      simp only [getFileReference, hlook, hexp, if_pos]
      have h3 : f + 3 = (f + 2) + 1 := by omega
      rw [h3]
      simp only [deleteFileReference, hget]
      simp [List.filter_filter]
      omega

/-- C7: fetching a stored reference whose expiry has passed returns
absent, removes the row from the backing store as a side effect, and a
second fetch of the same id returns absent with the state untouched, so
no further delete is performed; a reference that is missing or owned by
another user likewise returns absent with the state untouched. -/
theorem expiry_self_healing (fuel g : ℕ) (u i : String) (now : Int)
    (st : FMState) (r : VideoFileReference)
    (hlook : lookupRef u i st.rows = some r) (hexp : r.expiresAt < now) :
    (∃ st1 : FMState,
      getFileReference (fuel + 2) u i now st = (none, st1) ∧
      lookupRef u i st1.rows = none ∧
      st.dbDeletes < st1.dbDeletes ∧
      st1.files = st.files ∧
      getFileReference (g + 1) u i now st1 = (none, st1)) ∧
    (∀ other : FMState, lookupRef u i other.rows = none →
      getFileReference (g + 1) u i now other = (none, other)) := by
  have hmiss : ∀ other : FMState, lookupRef u i other.rows = none →
      getFileReference (g + 1) u i now other = (none, other) := by
    intro other h2
    simp [getFileReference, h2]
  obtain ⟨d, hd, hget⟩ := getExpired fuel u i now st r hlook hexp
  have hnone : ∀ rows : List VideoFileReference,
      lookupRef u i (rows.filter (fun x => ¬(x.id == i && x.userId == u))) = none := by
    intro rows
    simp only [lookupRef, List.find?_eq_none, List.mem_filter]
    intro x hx
    have h2 := hx.2
    simp at h2 ⊢
    tauto
  refine ⟨⟨_, hget, ?_, ?_, ?_, ?_⟩, hmiss⟩
  · simpa using hnone st.rows
  · simp
    omega
  · rfl
  · exact hmiss _ (by simpa using hnone st.rows)

/-- Witness for C7 at a one-row store holding an expired temporary
reference. -/
theorem expiry_self_healing_witness :
    ∃ st1 : FMState,
      getFileReference 2 "u" "rid" 11
        { rows := [{ id := "rid", userId := "u", fileName := "v.mp4",
                     filePath := some "/tmp/v.mp4", fileSize := 5,
                     mimeType := "video/mp4", checksum := none,
                     uploadedAt := 0, expiresAt := 10, isTemporary := true }],
          files := ["/tmp/v.mp4"], dbDeletes := 0, fsDeletes := 0 } = (none, st1) ∧
      lookupRef "u" "rid" st1.rows = none ∧
      0 < st1.dbDeletes ∧
      st1.files = ["/tmp/v.mp4"] ∧
      getFileReference 1 "u" "rid" 11 st1 = (none, st1) := by
  obtain ⟨⟨st1, ha, hb, hc, hd, he⟩, _⟩ := expiry_self_healing 0 0 "u" "rid" 11
    { rows := [{ id := "rid", userId := "u", fileName := "v.mp4",
                 filePath := some "/tmp/v.mp4", fileSize := 5,
                 mimeType := "video/mp4", checksum := none,
                 uploadedAt := 0, expiresAt := 10, isTemporary := true }],
      files := ["/tmp/v.mp4"], dbDeletes := 0, fsDeletes := 0 }
    { id := "rid", userId := "u", fileName := "v.mp4",
      filePath := some "/tmp/v.mp4", fileSize := 5,
      mimeType := "video/mp4", checksum := none,
      uploadedAt := 0, expiresAt := 10, isTemporary := true }
    (by rfl) (by decide)
  exact ⟨st1, ha, hb, hc, hd, he⟩

/-- C10: a path accepted by the filesystem route always yields a
reference, whatever MIME type the guesser reports: the stored reference
carries the guessed type (video slash mp4 when none is guessable), no
checksum, and is not temporary; the byte-upload route, by contrast,
rejects any supplied type that is neither video nor image. -/
theorem filesystem_reference_no_mime_restriction
    (env : FileManagerEnv) (userId filePath newId : String) (now : Int)
    (hgate : env.allowFilesystemUploads = true)
    (hallow : env.allowedUploadPaths ≠ [] →
      env.allowedUploadPaths.any
        (fun a => a ≠ "" && env.isRelativeTo (env.resolve filePath) (env.resolve a)) = true)
    (hexists : env.pathExists (env.resolve filePath) = true)
    (hfile : env.pathIsFile (env.resolve filePath) = true)
    (hsize : env.pathFileSize (env.resolve filePath) ≤ env.maxFileSize) :
    createFileReferenceFromPath env userId filePath newId now =
      .ok { id := newId, userId := userId,
            fileName := env.pathName (env.resolve filePath),
            filePath := some (env.resolve filePath),
            fileSize := env.pathFileSize (env.resolve filePath),
            mimeType := guessOrDefault (env.guessType (env.resolve filePath)),
            checksum := none, uploadedAt := now,
            expiresAt := now + env.fileExpiryHours * 3600 * 1000000,
            isTemporary := false } ∧
    (∀ mime : String, strStartsWith mime "video/" = false →
      strStartsWith mime "image/" = false → mime ≠ "" →
      ∀ (data : List ℕ) (fileName : String), data.length ≤ env.maxFileSize →
        createFileReference env userId data fileName (some mime) newId now =
          .error ("Invalid file type: " ++ mime)) := by
  constructor
  · have hsz : ¬(env.pathFileSize (env.resolve filePath) > env.maxFileSize) := by omega
    simp [createFileReferenceFromPath, hgate, hexists, hfile, hsz]
    intro h
    simpa using hallow h
  · intro mime hv hi hne data fileName hlen
    have hsz : ¬(data.length > env.maxFileSize) := by omega
    simp [createFileReference, hsz, hne, hv, hi]

/-- Witness for C10 with a PDF MIME guess: the filesystem route accepts
it, the byte route rejects the same type. -/
theorem filesystem_reference_witness :
    createFileReferenceFromPath
      { allowFilesystemUploads := true, allowedUploadPaths := ["/data"],
        maxFileSize := 1000, fileExpiryHours := 24, storagePath := "/store",
        resolve := fun p => p,
        isRelativeTo := fun p a => strStartsWith p a,
        pathExists := fun _ => true, pathIsFile := fun _ => true,
        pathFileSize := fun _ => 10, pathName := fun p => p,
        pathSuffix := fun _ => ".pdf",
        guessType := fun _ => some "application/pdf",
        sha256Hex := fun _ => "h" } "u" "/data/doc.pdf" "id1" 0 =
      .ok { id := "id1", userId := "u", fileName := "/data/doc.pdf",
            filePath := some "/data/doc.pdf", fileSize := 10,
            mimeType := "application/pdf", checksum := none,
            uploadedAt := 0, expiresAt := 86400000000,
            isTemporary := false } ∧
    createFileReference
      { allowFilesystemUploads := true, allowedUploadPaths := ["/data"],
        maxFileSize := 1000, fileExpiryHours := 24, storagePath := "/store",
        resolve := fun p => p,
        isRelativeTo := fun p a => strStartsWith p a,
        pathExists := fun _ => true, pathIsFile := fun _ => true,
        pathFileSize := fun _ => 10, pathName := fun p => p,
        pathSuffix := fun _ => ".pdf",
        guessType := fun _ => some "application/pdf",
        sha256Hex := fun _ => "h" } "u" [1, 2] "doc.pdf"
      (some "application/pdf") "id1" 0 =
      .error "Invalid file type: application/pdf" := by
  have h := filesystem_reference_no_mime_restriction
    { allowFilesystemUploads := true, allowedUploadPaths := ["/data"],
      maxFileSize := 1000, fileExpiryHours := 24, storagePath := "/store",
      resolve := fun p => p,
      isRelativeTo := fun p a => strStartsWith p a,
      pathExists := fun _ => true, pathIsFile := fun _ => true,
      pathFileSize := fun _ => 10, pathName := fun p => p,
      pathSuffix := fun _ => ".pdf",
      guessType := fun _ => some "application/pdf",
      sha256Hex := fun _ => "h" } "u" "/data/doc.pdf" "id1" 0
    rfl (fun _ => by decide) rfl rfl (by decide)
  exact ⟨h.1.trans (by rfl),
    (h.2 "application/pdf" (by decide) (by decide) (by decide) [1, 2] "doc.pdf"
      (by decide)).trans (by rfl)⟩

end Willow
